import Mathlib

/-
A shallow embedding of `plpydbapi.py` — a DB-API 2.0 compatible shim on top
of PL/Python — together with a verification of its specification.

Modelling conventions:
* Python exceptions are modelled by `Except PyExc` (for pure accessors) or by
  returning `Option PyExc` next to the post-call state (for mutating methods):
  on a raise, the returned state is the object state at the moment of the
  raise, exactly as Python leaves `self`.
* The host engine (`plpy.prepare` + `plpy.execute`) is an external
  collaborator; it is modelled as a function from the rewritten query, the
  inferred type list and the value list to an `SpiOutcome` (a result object
  or a raised `SPIError`).
* Result rows are materialized tuples; their cell values are opaque to the
  shim, so a row is abstracted as a `List Int`.  Column descriptors are
  abstracted to their name component (`none` for the unknown placeholder
  descriptor); the shim never reads descriptors back.
* Machine integers do not overflow here (Python ints are unbounded), so
  counts are `Int`/`Nat`.
-/

set_option autoImplicit false

namespace Plpydbapi

/-- A materialized result row: an ordered tuple of column values.  Cell
values are opaque to the shim, abstracted as integers. -/
abbrev Row := List Int

/-- Python runtime values as far as the shim's parameter handling can
distinguish them.  Payloads the shim never inspects (list elements, float
and decimal contents) are abstracted. -/
inductive PyVal where
  | pyNone
  | pyBool (b : Bool)
  | pyDecimal (r : String)
  | pyFloat (r : String)
  | pyInt (n : Int)
  | pyBytes (bs : List Nat)
  | pyMemoryview (bs : List Nat)
  | pyBytearray (bs : List Nat)
  | pyList (elems : List Int)
  | pyStr (s : String)
  deriving DecidableEq, Repr

/-- Python exceptions that can surface from the shim.  `shimError` is the
module's `Error` class, carrying the optional wrapped host error
(`self.spierror`, a message string); `typeError` models Python `TypeError`
(e.g. arithmetic on `None` or a `%`-format arity mismatch); `spiError`
models an *uncaught* host-native `plpy.SPIError` propagating through shim
code outside any `try`/`except` (this happens in `get_type_obj`, whose
catalog query is unguarded). -/
inductive PyExc where
  | shimError (spierror : Option String)
  | valueError (msg : String)
  | indexError (msg : String)
  | typeError
  | spiError (e : String)
  deriving DecidableEq, Repr

/-- Whether an exception is (an instance of) the shim's `Error` class. -/
def PyExc.isShimError : PyExc → Bool
  | .shimError _ => true
  | _ => false

/-- Whether an exception is a host-native `plpy.SPIError` that escaped the
shim unwrapped. -/
def PyExc.isHostNative : PyExc → Bool
  | .spiError _ => true
  | _ => false

instance instDecidableEqExceptPy {ε α : Type} [DecidableEq ε] [DecidableEq α] :
    DecidableEq (Except ε α) := fun a b =>
  match a, b with
  | .ok x, .ok y => decidable_of_iff (x = y) (by simp)
  | .error e, .error f => decidable_of_iff (e = f) (by simp)
  | .ok _, .error _ => isFalse (by simp)
  | .error _, .ok _ => isFalse (by simp)

/-- `isinstance(param, bool)`. -/
def isinstance_bool : PyVal → Bool
  | .pyBool _ => true
  | _ => false

/-- `isinstance(param, decimal.Decimal)`. -/
def isinstance_decimal : PyVal → Bool
  | .pyDecimal _ => true
  | _ => false

/-- `isinstance(param, float)`. -/
def isinstance_float : PyVal → Bool
  | .pyFloat _ => true
  | _ => false

/-- `isinstance(param, int)`: in Python, `bool` is a subclass of `int`,
so booleans satisfy this check as well.  On Python 3 the module aliases
`long = int`, so `isinstance(param, long)` is the same check. -/
def isinstance_int : PyVal → Bool
  | .pyBool _ => true
  | .pyInt _ => true
  | _ => false

/-- `isinstance(param, byte_types)` where on Python 3 the module computes
`byte_types = (bytes, memoryview, bytearray)` (`buffer` does not exist). -/
def isinstance_byte_types : PyVal → Bool
  | .pyBytes _ => true
  | .pyMemoryview _ => true
  | .pyBytearray _ => true
  | _ => false

/-- `isinstance(param, list)`. -/
def isinstance_list : PyVal → Bool
  | .pyList _ => true
  | _ => false

/-- `hasattr(param, 'tobytes')`: of the byte types only `memoryview` has a
`tobytes` method. -/
def has_tobytes : PyVal → Bool
  | .pyMemoryview _ => true
  | _ => false

/-- `param.tobytes()` on a `memoryview` yields the underlying `bytes`. -/
def tobytes : PyVal → PyVal
  | .pyMemoryview bs => .pyBytes bs
  | v => v

/-- `Cursor.py_param_to_pg_type`: the ordered first-match-wins chain of
`isinstance` checks of the source (bool, Decimal, float, long, int,
byte_types, list, fallback text). -/
def py_param_to_pg_type (param : PyVal) : String :=
  if isinstance_bool param then "bool"
  else if isinstance_decimal param then "numeric"
  else if isinstance_float param then "float8"
  else if isinstance_int param then "int"
  else if isinstance_int param then "int"
  else if isinstance_byte_types param then "bytea"
  else if isinstance_list param then "text[]"
  else "text"

/-- State of the parameter loop in `Cursor.execute` (lines 193-209 of the
source): the `placeholders`, `types` and `values` lists and the placeholder
counter `i`. -/
structure ParamsAcc where
  placeholders : List String := []
  types : List String := []
  values : List PyVal := []
  i : Nat := 0
  deriving DecidableEq, Repr

/-- One iteration of the parameter loop in `Cursor.execute`: `None` becomes
the literal `NULL` in the placeholder list; any other value allocates the
next positional placeholder, records its inferred type and queues the value
(converting a buffer-view to concrete bytes when the type is `bytea`). -/
def paramStep (acc : ParamsAcc) (param : PyVal) : ParamsAcc :=
  if param = .pyNone then
    { acc with placeholders := acc.placeholders ++ ["NULL"] }
  else
    let i := acc.i + 1
    let t := py_param_to_pg_type param
    let v := if t = "bytea" && has_tobytes param then tobytes param else param
    { placeholders := acc.placeholders ++ ["$" ++ toString i],
      types := acc.types ++ [t],
      values := acc.values ++ [v],
      i := i }

/-- The whole parameter loop of `Cursor.execute`. -/
def buildParams (parameters : List PyVal) : ParamsAcc :=
  parameters.foldl paramStep {}

/-- Interleave the segments of the operation text (split at `%s`) with the
substituted arguments. -/
def interleavePct : List String → List String → String
  | [], _ => ""
  | s :: segs, [] => s ++ interleavePct segs []
  | s :: segs, a :: args => s ++ a ++ interleavePct segs args

/-- Split a character list at every occurrence of the marker `%s`. -/
def splitPctS : List Char → List (List Char)
  | [] => [[]]
  | '%' :: 's' :: rest => [] :: splitPctS rest
  | c :: rest =>
    match splitPctS rest with
    | [] => [[c]]
    | seg :: segs => (c :: seg) :: segs

/-- Python percent-formatting `operation % tuple(placeholders)` restricted
to `%s` conversions (the only placeholder style the shim documents);
`none` models the `TypeError` Python raises when the number of markers does
not match the number of arguments. -/
def pctFormat (operation : String) (args : List String) : Option String :=
  let segs := (splitPctS operation.data).map (fun cs => String.mk cs)
  if segs.length = args.length + 1 then some (interleavePct segs args) else none

/-- `Connection`: the session.  `_subxact` records whether a subtransaction
scope is currently open (the scope object itself lives in the host). -/
structure Connection where
  closed : Bool := false
  _subxact : Bool := false
  deriving DecidableEq, Repr

/-- `Connection.rollback`: `Error()` if closed; otherwise exits any open
scope signalling failure (host-side effect) and clears the scope
reference. -/
def Connection.rollback (conn : Connection) : Except PyExc Connection :=
  if conn.closed then .error (.shimError none)
  else .ok { conn with _subxact := false }

/-- `Connection.commit`: `Error()` if closed; otherwise exits any open
scope cleanly (host-side effect) and clears the scope reference. -/
def Connection.commit (conn : Connection) : Except PyExc Connection :=
  if conn.closed then .error (.shimError none)
  else .ok { conn with _subxact := false }

/-- `Connection.close`: `Error()` if already closed; otherwise
`self.rollback()` then mark closed. -/
def Connection.close (conn : Connection) : Except PyExc Connection :=
  if conn.closed then .error (.shimError none)
  else
    match conn.rollback with
    | .error e => .error e
    | .ok conn2 => .ok { conn2 with closed := true }

/-- `Connection._ensure_transaction`: lazily open a subtransaction scope. -/
def Connection._ensure_transaction (conn : Connection) : Connection :=
  if conn._subxact then conn else { conn with _subxact := true }

/-- `Cursor`: the statement executor.  Fields mirror the source attributes;
`rownumber` is `none` before the first row-returning execution. -/
structure Cursor where
  description : Option (List (Option String)) := none
  rowcount : Int := -1
  arraysize : Int := 1
  rownumber : Option Int := none
  closed : Bool := false
  _execute_result : Option (List Row) := none
  deriving DecidableEq, Repr

def _SPI_OK_UTILITY : Nat := 4
def _SPI_OK_SELECT : Nat := 5
def _SPI_OK_INSERT_RETURNING : Nat := 11
def _SPI_OK_DELETE_RETURNING : Nat := 12
def _SPI_OK_UPDATE_RETURNING : Nat := 13

/-- Outcome of the host engine's prepare-and-execute step
(`plpy.prepare` + `plpy.execute`): either a result object or a raised
`SPIError` (modelled by its message).  A result object reports `status()`,
the rows (already materialized to tuples; per-cell extraction by column
name is opaque to every property below), `nrows()`, whether `colnames` and
`coltypes` metadata is available (PG 9.2+), the ordered column names, and
the key order of the first row (used by the legacy description fallback). -/
inductive SpiOutcome where
  | success (status : Nat) (rows : List Row) (nrows : Int)
      (colnamesAvail : Bool) (colnames : List String) (rowKeys : List String)
  | spiError (e : String)
  deriving DecidableEq, Repr

/-- The host engine as seen by one `execute` call: query text, type list and
value list determine the outcome. -/
abbrev HostEngine := String → List String → List PyVal → SpiOutcome

/-- `res.status() in [SPI_OK_SELECT, SPI_OK_INSERT_RETURNING,
SPI_OK_DELETE_RETURNING, SPI_OK_UPDATE_RETURNING]`. -/
def rowReturningStatus (status : Nat) : Bool :=
  status = _SPI_OK_SELECT || status = _SPI_OK_INSERT_RETURNING ||
  status = _SPI_OK_DELETE_RETURNING || status = _SPI_OK_UPDATE_RETURNING

/-- The three-way description construction of `Cursor.execute` (modern
colnames/coltypes path, legacy first-row-keys path, unknown placeholder),
abstracted to the column-name component of each 7-tuple.  The type-object
component the modern path computes via `get_type_obj` is pure *content*
abstraction only here; the catalog *interaction* that computation performs
(an unguarded host query that can raise) is modelled separately by
`get_type_obj`/`descTypeObjs` and included in `Cursor.execute_full`
below. -/
def mkDescription (colnamesAvail : Bool) (colnames rowKeys : List String)
    (numRows : Nat) : List (Option String) :=
  if colnamesAvail then colnames.map some
  else if numRows > 0 then rowKeys.map some
  else [none]

/-- `Cursor._is_closed`. -/
def Cursor._is_closed (cur : Cursor) (conn : Connection) : Bool :=
  cur.closed || conn.closed

/-- The cursor state produced by the tail of `Cursor.execute` (source lines
217-243) after a *successful* host prepare-and-execute: first the reset of
`_execute_result`, `rownumber`, `description`, `rowcount`, then the
row-returning classification, then the rowcount classification. -/
def executeResultCursor (cur : Cursor) (status : Nat) (rows : List Row)
    (nrows : Int) (colnamesAvail : Bool) (colnames rowKeys : List String) :
    Cursor :=
  let cur2 : Cursor :=
    { cur with _execute_result := none, rownumber := none,
               description := none, rowcount := -1 }
  let cur3 :=
    if rowReturningStatus status then
      { cur2 with _execute_result := some rows, rownumber := some 0,
                  description :=
                    some (mkDescription colnamesAvail colnames rowKeys rows.length) }
    else cur2
  if status = _SPI_OK_UTILITY then { cur3 with rowcount := -1 }
  else { cur3 with rowcount := nrows }

/-- `Cursor.execute`, base model.  Mutation is modelled by returning the
raised exception (if any) next to the post-call connection and cursor; on
a raise the returned state is the state at the moment of the raise.  Note
the source resets the result fields only *after* the `try` block around
the host call succeeds.  This base model omits one interaction: building
descriptors on the modern path calls `get_type_obj`, whose lazy,
*unguarded* type-catalog query can itself raise a host error.
`Cursor.execute_full` below models that path as well; the lemma
`execute_full_agrees` shows this base model is exactly its restriction to
calls whose catalog query succeeds. -/
def Cursor.execute (host : HostEngine) (conn : Connection) (cur : Cursor)
    (operation : String) (parameters : List PyVal) :
    Option PyExc × Connection × Cursor :=
  if cur._is_closed conn then (some (.shimError none), conn, cur)
  else
    let conn := conn._ensure_transaction
    let acc := buildParams parameters
    match pctFormat operation acc.placeholders with
    | none => (some .typeError, conn, cur)
    | some query =>
      match host query acc.types acc.values with
      | .spiError e => (some (.shimError (some e)), conn, cur)
      | .success status rows nrows colnamesAvail colnames rowKeys =>
        (none, conn,
         executeResultCursor cur status rows nrows colnamesAvail colnames rowKeys)

/-- The loop of `Cursor.executemany`, threading `totalcount`.  An exception
from an inner `execute` propagates before the final `self.rowcount`
assignment. -/
def Cursor.executemanyAux (host : HostEngine) (conn : Connection)
    (cur : Cursor) (operation : String) (seq : List (List PyVal))
    (totalcount : Int) : Option PyExc × Connection × Cursor × Int :=
  match seq with
  | [] => (none, conn, cur, totalcount)
  | parameters :: rest =>
    match Cursor.execute host conn cur operation parameters with
    | (some e, conn2, cur2) => (some e, conn2, cur2, totalcount)
    | (none, conn2, cur2) =>
      let totalcount :=
        if totalcount ≠ -1 then totalcount + cur2.rowcount else totalcount
      Cursor.executemanyAux host conn2 cur2 operation rest totalcount

/-- `Cursor.executemany`. -/
def Cursor.executemany (host : HostEngine) (conn : Connection) (cur : Cursor)
    (operation : String) (seq_of_parameters : List (List PyVal)) :
    Option PyExc × Connection × Cursor :=
  match Cursor.executemanyAux host conn cur operation seq_of_parameters 0 with
  | (some e, conn2, cur2, _) => (some e, conn2, cur2)
  | (none, conn2, cur2, totalcount) =>
    (none, conn2, { cur2 with rowcount := totalcount })

/-- Python list indexing `xs[i]` with an `int` index: a negative index wraps
once from the end; an out-of-range index raises `IndexError` (`none`). -/
def pyGetItem (xs : List Row) (i : Int) : Option Row :=
  let j : Int := if i < 0 then (xs.length : Int) + i else i
  if h : 0 ≤ j ∧ j < (xs.length : Int) then
    some (xs.get ⟨j.toNat, by omega⟩)
  else none

/-- Python slicing `xs[a:b]` with `int` bounds (clamped, never raising). -/
def pySlice (xs : List Row) (a b : Int) : List Row :=
  let n : Int := xs.length
  let a2 := if a < 0 then max (n + a) 0 else min a n
  let b2 := if b < 0 then max (n + b) 0 else min b n
  (xs.take b2.toNat).drop a2.toNat

/-- `Cursor.fetchone`.  With `rownumber = None` (unreachable while a result
buffer exists) the equality test with `len` is `False` and the subsequent
`None` index raises `TypeError`. -/
def Cursor.fetchone (cur : Cursor) : Except PyExc (Option Row × Cursor) :=
  match cur._execute_result with
  | none => .error (.shimError none)
  | some rows =>
    match cur.rownumber with
    | none => .error .typeError
    | some rn =>
      if rn = (rows.length : Int) then .ok (none, cur)
      else
        match pyGetItem rows rn with
        | none => .error (.indexError ("list index out of range"))
        | some row => .ok (some row, { cur with rownumber := some (rn + 1) })

/-- `Cursor.fetchmany`: slices `[rownumber, rownumber+size)` and advances
`rownumber` by `size` without clipping to the buffer length.  A `None`
`rownumber` raises `TypeError` at `self.rownumber + size`. -/
def Cursor.fetchmany (cur : Cursor) (size : Option Int) :
    Except PyExc (List Row × Cursor) :=
  match cur._execute_result with
  | none => .error (.shimError none)
  | some rows =>
    let sz := size.getD cur.arraysize
    match cur.rownumber with
    | none => .error .typeError
    | some rn =>
      .ok (pySlice rows rn (rn + sz), { cur with rownumber := some (rn + sz) })

/-- `Cursor.fetchall`: the remaining slice `xs[rownumber:]`, then
`rownumber = len(xs)`.  (A `None` slice bound is legal Python: `xs[None:]`
is the whole list.) -/
def Cursor.fetchall (cur : Cursor) : Except PyExc (List Row × Cursor) :=
  match cur._execute_result with
  | none => .error (.shimError none)
  | some rows =>
    match cur.rownumber with
    | none => .ok (rows, { cur with rownumber := some (rows.length : Int) })
    | some rn =>
      .ok (pySlice rows rn (rows.length : Int),
           { cur with rownumber := some ((rows.length : Int)) })

/-- `Cursor.scroll`: compute the new position from the mode (`ValueError`
on an unknown mode, before the result buffer is touched), then range-check
it against the buffer length (`IndexError`), then assign. -/
def Cursor.scroll (cur : Cursor) (value : Int) (mode : String) :
    Except PyExc Cursor :=
  match (if mode = "relative" then
           match cur.rownumber with
           | none => Except.error PyExc.typeError
           | some rn => Except.ok (rn + value)
         else if mode = "absolute" then Except.ok value
         else Except.error (PyExc.valueError ("Invalid mode"))) with
  | .error e => .error e
  | .ok newpos =>
    match cur._execute_result with
    | none => .error .typeError
    | some rows =>
      if newpos < 0 ∨ newpos > (rows.length : Int) then
        .error (.indexError ("scroll operation would leave result set"))
      else .ok { cur with rownumber := some newpos }

/-- `Cursor.close`: merely marks the executor closed. -/
def Cursor.close (cur : Cursor) : Cursor :=
  { cur with closed := true }

/-- `n` successive `fetchone` calls, collecting the returned values. -/
def Cursor.fetchoneN (cur : Cursor) : Nat → Except PyExc (List (Option Row) × Cursor)
  | 0 => .ok ([], cur)
  | n + 1 =>
    match cur.fetchone with
    | .error e => .error e
    | .ok (r, cur2) =>
      match cur2.fetchoneN n with
      | .error e => .error e
      | .ok (rs, cur3) => .ok (r :: rs, cur3)

/-! ### Specification-side reference definitions

The following three functions restate the parameter loop the way the spec
describes it (null parameters contribute a literal `NULL` marker and
nothing else; each non-null parameter contributes one consecutively
numbered positional placeholder, one inferred type and one queued value).
They exist to be *compared* with `buildParams`, which is translated from
the source. -/

/-- Spec reading: the rewritten placeholder list, with `i` non-null
parameters already emitted before this point. -/
def specPlaceholders : List PyVal → Nat → List String
  | [], _ => []
  | p :: rest, i =>
    if p = .pyNone then "NULL" :: specPlaceholders rest i
    else ("$" ++ toString (i + 1)) :: specPlaceholders rest (i + 1)

/-- Spec reading: the queued type list (one entry per non-null parameter). -/
def specTypes : List PyVal → List String
  | [] => []
  | p :: rest =>
    if p = .pyNone then specTypes rest
    else py_param_to_pg_type p :: specTypes rest

/-- Spec reading: the queued value list (one entry per non-null parameter,
buffer views converted to concrete bytes). -/
def specValues : List PyVal → List PyVal
  | [] => []
  | p :: rest =>
    if p = .pyNone then specValues rest
    else (if py_param_to_pg_type p = "bytea" && has_tobytes p
          then tobytes p else p) :: specValues rest

/-- Number of non-null parameters. -/
def nonNullCount : List PyVal → Nat
  | [] => 0
  | p :: rest => (if p = .pyNone then 0 else 1) + nonNullCount rest

/-- The outcome of one `execute` call's host interaction, determined by the
operation text and the parameter set (`none` when percent formatting
fails). -/
def callOutcome (host : HostEngine) (operation : String) (ps : List PyVal) :
    Option SpiOutcome :=
  (pctFormat operation (buildParams ps).placeholders).map
    (fun query => host query (buildParams ps).types (buildParams ps).values)

/-- The `rowcount` a successful `execute` stores for a given host result. -/
def outcomeRowcount : SpiOutcome → Int
  | .success status _ nrows _ _ _ =>
    if status = _SPI_OK_UTILITY then -1 else nrows
  | .spiError _ => 0

/-- Whether one `execute` call's host interaction succeeds. -/
def isSuccessCall (host : HostEngine) (operation : String)
    (ps : List PyVal) : Bool :=
  match callOutcome host operation ps with
  | some (.success _ _ _ _ _ _) => true
  | _ => false

/-- The `rowcount` one `execute` call stores (under a successful call). -/
def callRowcount (host : HostEngine) (operation : String)
    (ps : List PyVal) : Int :=
  match callOutcome host operation ps with
  | some o => outcomeRowcount o
  | none => 0

/-- The `totalcount` accumulation of `executemany`: a per-call row count is
added only while the running total differs from `-1`. -/
def accTotals (t0 : Int) (rcs : List Int) : Int :=
  rcs.foldl (fun t rc => if t ≠ -1 then t + rc else t) t0

/-! ### The type-catalog path of execute

`Cursor.execute` (line 232 of the source) builds descriptors on the modern
path with `get_type_obj(typeoid)` per column; `get_type_obj`
(lines 405-415) lazily populates a process-wide cache by querying the
host's `pg_type` catalog through `plpy.prepare`/`plpy.execute` with *no*
surrounding `try`/`except`, so a host `SPIError` raised there propagates
out of `execute` unwrapped.  The definitions below model this path; the
refined `Cursor.execute_full` includes it. -/

/-- The shim's driver-level type objects (`STRING`, `BINARY`, `NUMBER`,
`DATETIME`, `ROWID`). -/
inductive TypeObj where
  | STRING
  | BINARY
  | NUMBER
  | DATETIME
  | ROWID
  deriving DecidableEq, Repr

/-- One row of the host's type catalog: oid, typname, typcategory. -/
structure PgTypeRow where
  oid : Nat
  typname : String
  typcategory : String
  deriving DecidableEq, Repr

/-- `_typname_typeobjs`: the name-keyed classification map. -/
def _typname_typeobjs (typname : String) : Option TypeObj :=
  if typname = "bytea" then some TypeObj.BINARY else none

/-- `_typcategory_typeobjs`: the category-keyed classification map. -/
def _typcategory_typeobjs (typcategory : String) : Option TypeObj :=
  if typcategory = "D" then some TypeObj.DATETIME
  else if typcategory = "N" then some TypeObj.NUMBER
  else if typcategory = "S" then some TypeObj.STRING
  else if typcategory = "T" then some TypeObj.DATETIME
  else none

/-- The population loop of `get_type_obj` over the catalog rows (category
match first, then name match, else the row is skipped).  The cache is an
association list keyed by oid; oids are unique in the catalog. -/
def populateTypeCache (rows : List PgTypeRow) : List (Nat × TypeObj) :=
  rows.foldl
    (fun cache row =>
      match _typcategory_typeobjs row.typcategory with
      | some obj => cache ++ [(row.oid, obj)]
      | none =>
        match _typname_typeobjs row.typname with
        | some obj => cache ++ [(row.oid, obj)]
        | none => cache)
    []

/-- The host type catalog as an external collaborator: the outcome of the
catalog query `get_type_obj` runs — either the catalog rows or a raised
`SPIError` (modelled by its message). -/
abbrev CatalogOutcome := Except String (List PgTypeRow)

/-- `get_type_obj(typeoid)` (source lines 405-415): when the process-wide
cache `_typoid_typeobjs` is empty it first runs the *unguarded* catalog
query — a host `SPIError` raised there propagates to the caller uncaught;
otherwise it answers from the cache.  Returns the type object (if any)
and the updated cache. -/
def get_type_obj (catalog : CatalogOutcome) (cache : List (Nat × TypeObj))
    (typeoid : Nat) : Except String (Option TypeObj × List (Nat × TypeObj)) :=
  if cache = [] then
    match catalog with
    | .error e => .error e
    | .ok rows =>
      let cache2 := populateTypeCache rows
      .ok (cache2.lookup typeoid, cache2)
  else .ok (cache.lookup typeoid, cache)

/-- The type objects of the modern description comprehension (source line
232): `get_type_obj` applied to each column's type oid left to right,
threading the process-wide cache; the first raising call aborts the
comprehension. -/
def descTypeObjs (catalog : CatalogOutcome) :
    List (Nat × TypeObj) → List Nat →
    Except String (List (Option TypeObj) × List (Nat × TypeObj))
  | cache, [] => .ok ([], cache)
  | cache, t :: ts =>
    match get_type_obj catalog cache t with
    | .error e => .error e
    | .ok (obj, cache2) =>
      match descTypeObjs catalog cache2 ts with
      | .error e => .error e
      | .ok (objs, cache3) => .ok (obj :: objs, cache3)

/-- Host outcome for the full execute model, additionally reporting the
ordered column type oids (the result object's `coltypes()`, meaningful
when `colnamesAvail`). -/
inductive SpiOutcomeFull where
  | success (status : Nat) (rows : List Row) (nrows : Int)
      (colnamesAvail : Bool) (colnames : List String) (coltypes : List Nat)
      (rowKeys : List String)
  | spiError (e : String)
  deriving DecidableEq, Repr

/-- Forget the coltypes component. -/
def SpiOutcomeFull.toBase : SpiOutcomeFull → SpiOutcome
  | .success status rows nrows ca cns _ rks =>
    .success status rows nrows ca cns rks
  | .spiError e => .spiError e

/-- The host engine as seen by the full execute model. -/
abbrev HostEngineFull := String → List String → List PyVal → SpiOutcomeFull

/-- `Cursor.execute`, refined model: includes the type-catalog interaction
of the description-building step.  On a row-returning result with column
metadata available, the per-column type objects are computed through
`descTypeObjs` (for their effects: cache population and a possible
uncaught host `SPIError`); descriptor *content* stays abstracted to column
names via `mkDescription` inside `executeResultCursor`, as in the base
model.  A catalog `SPIError` escapes exactly where the source lets it
escape: after the new result buffer and position have been assigned
(source lines 224-229) and before the description and row count are
(lines 230-243), so the cursor then holds the new rows, position 0, and
the reset values `description = None`, `rowcount = -1`.  Returns the
raised exception (if any), the post-call connection and cursor, and the
updated cache. -/
def Cursor.execute_full (host : HostEngineFull) (catalog : CatalogOutcome)
    (cache : List (Nat × TypeObj)) (conn : Connection) (cur : Cursor)
    (operation : String) (parameters : List PyVal) :
    Option PyExc × Connection × Cursor × List (Nat × TypeObj) :=
  if cur._is_closed conn then (some (.shimError none), conn, cur, cache)
  else
    let conn := conn._ensure_transaction
    let acc := buildParams parameters
    match pctFormat operation acc.placeholders with
    | none => (some .typeError, conn, cur, cache)
    | some query =>
      match host query acc.types acc.values with
      | .spiError e => (some (.shimError (some e)), conn, cur, cache)
      | .success status rows nrows colnamesAvail colnames coltypes rowKeys =>
        if rowReturningStatus status && colnamesAvail then
          match descTypeObjs catalog cache coltypes with
          | .error e =>
            (some (.spiError e), conn,
             { cur with _execute_result := some rows, rownumber := some 0,
                        description := none, rowcount := -1 }, cache)
          | .ok (_, cache2) =>
            (none, conn,
             executeResultCursor cur status rows nrows colnamesAvail
               colnames rowKeys,
             cache2)
        else
          (none, conn,
           executeResultCursor cur status rows nrows colnamesAvail
             colnames rowKeys,
           cache)

/-! ### Helper lemmas -/

theorem executeResultCursor_fields (cur : Cursor) (status : Nat)
    (rows : List Row) (nrows : Int) (ca : Bool) (cns rks : List String) :
    (executeResultCursor cur status rows nrows ca cns rks).closed = cur.closed ∧
    (executeResultCursor cur status rows nrows ca cns rks).arraysize = cur.arraysize ∧
    (executeResultCursor cur status rows nrows ca cns rks).rowcount =
      (if status = _SPI_OK_UTILITY then -1 else nrows) ∧
    (executeResultCursor cur status rows nrows ca cns rks)._execute_result =
      (if rowReturningStatus status then some rows else none) ∧
    (executeResultCursor cur status rows nrows ca cns rks).rownumber =
      (if rowReturningStatus status then some 0 else none) ∧
    (executeResultCursor cur status rows nrows ca cns rks).description =
      (if rowReturningStatus status then
        some (mkDescription ca cns rks rows.length) else none) := by
  unfold executeResultCursor
  split_ifs <;> simp_all

theorem execute_eq_of_success (host : HostEngine) (conn : Connection)
    (cur : Cursor) (operation : String) (parameters : List PyVal)
    (status : Nat) (rows : List Row) (nrows : Int) (ca : Bool)
    (cns rks : List String) (query : String)
    (hopen : cur._is_closed conn = false)
    (hq : pctFormat operation (buildParams parameters).placeholders = some query)
    (hhost : host query (buildParams parameters).types
        (buildParams parameters).values =
      SpiOutcome.success status rows nrows ca cns rks) :
    Cursor.execute host conn cur operation parameters =
      (none, conn._ensure_transaction,
       executeResultCursor cur status rows nrows ca cns rks) := by
  simp [Cursor.execute, hopen, hq, hhost]

theorem execute_eq_of_spiError (host : HostEngine) (conn : Connection)
    (cur : Cursor) (operation : String) (parameters : List PyVal)
    (e : String) (query : String)
    (hopen : cur._is_closed conn = false)
    (hq : pctFormat operation (buildParams parameters).placeholders = some query)
    (hhost : host query (buildParams parameters).types
        (buildParams parameters).values = SpiOutcome.spiError e) :
    Cursor.execute host conn cur operation parameters =
      (some (.shimError (some e)), conn._ensure_transaction, cur) := by
  simp [Cursor.execute, hopen, hq, hhost]

theorem descTypeObjs_ok_of_catalog_ok (rows0 : List PgTypeRow) :
    ∀ (ts : List Nat) (cache : List (Nat × TypeObj)),
    ∃ objs cache2, descTypeObjs (.ok rows0) cache ts = .ok (objs, cache2) := by
  intro ts
  induction ts with
  | nil => intro cache; exact ⟨[], cache, rfl⟩
  | cons t ts ih =>
    intro cache
    by_cases hc : cache = []
    · obtain ⟨objs, cache3, hrec⟩ := ih (populateTypeCache rows0)
      exact ⟨(populateTypeCache rows0).lookup t :: objs, cache3,
        by simp [descTypeObjs, get_type_obj, hc, hrec]⟩
    · obtain ⟨objs, cache3, hrec⟩ := ih cache
      exact ⟨cache.lookup t :: objs, cache3,
        by simp [descTypeObjs, get_type_obj, hc, hrec]⟩

theorem descTypeObjs_error (catalog : CatalogOutcome) :
    ∀ (ts : List Nat) (cache : List (Nat × TypeObj)) (e : String),
    descTypeObjs catalog cache ts = .error e →
    cache = [] ∧ catalog = .error e := by
  intro ts
  induction ts with
  | nil =>
    intro cache e h
    exact absurd h (by simp [descTypeObjs])
  | cons t ts ih =>
    intro cache e h
    unfold descTypeObjs at h
    rcases hg : get_type_obj catalog cache t with e2 | ⟨obj, cache2⟩
    · rw [hg] at h
      dsimp only at h
      injection h with he2
      unfold get_type_obj at hg
      by_cases hc : cache = []
      · rw [if_pos hc] at hg
        rcases hcat : catalog with ce | rows0
        · rw [hcat] at hg
          simp only [Except.error.injEq] at hg
          exact ⟨hc, by rw [hg, he2]⟩
        · rw [hcat] at hg
          simp at hg
      · rw [if_neg hc] at hg
        exact absurd hg (by simp)
    · rw [hg] at h
      dsimp only at h
      rcases hrec : descTypeObjs catalog cache2 ts with e2 | ⟨objs, cache3⟩
      · rw [hrec] at h
        dsimp only at h
        obtain ⟨hc2, hcat⟩ := ih cache2 e2 hrec
        unfold get_type_obj at hg
        by_cases hc : cache = []
        · rw [if_pos hc, hcat] at hg
          simp at hg
        · rw [if_neg hc] at hg
          simp only [Except.ok.injEq, Prod.mk.injEq] at hg
          exact absurd (hg.2.trans hc2) hc
      · rw [hrec] at h
        dsimp only at h
        exact absurd h (by simp)

/-- The base model `Cursor.execute` is the restriction of
`Cursor.execute_full` to calls whose catalog query succeeds: with a
succeeding catalog the two models agree on the raised exception, the
connection and the cursor (the full model additionally returns the
updated cache). -/
theorem execute_full_agrees (host : HostEngineFull) (rows0 : List PgTypeRow)
    (cache : List (Nat × TypeObj)) (conn : Connection) (cur : Cursor)
    (operation : String) (parameters : List PyVal) :
    ∃ cache2,
      Cursor.execute_full host (.ok rows0) cache conn cur operation parameters =
        ((Cursor.execute (fun q t v => (host q t v).toBase) conn cur
            operation parameters).1,
         (Cursor.execute (fun q t v => (host q t v).toBase) conn cur
            operation parameters).2.1,
         (Cursor.execute (fun q t v => (host q t v).toBase) conn cur
            operation parameters).2.2,
         cache2) := by
  by_cases hcl : cur._is_closed conn
  · exact ⟨cache, by simp [Cursor.execute_full, Cursor.execute, hcl]⟩
  · rcases hpf : pctFormat operation (buildParams parameters).placeholders
      with _ | q
    · exact ⟨cache, by simp [Cursor.execute_full, Cursor.execute, hcl, hpf]⟩
    · rcases ho : host q (buildParams parameters).types
          (buildParams parameters).values with
        ⟨status, rws, nr, ca, cns, cts, rks⟩ | e
      · by_cases hmeta : rowReturningStatus status && ca
        · obtain ⟨objs, cache2, hdo⟩ := descTypeObjs_ok_of_catalog_ok rows0 cts cache
          exact ⟨cache2, by
            simp [Cursor.execute_full, Cursor.execute, hcl, hpf, ho, hmeta,
                  hdo, SpiOutcomeFull.toBase]⟩
        · exact ⟨cache, by
            simp [Cursor.execute_full, Cursor.execute, hcl, hpf, ho, hmeta,
                  SpiOutcomeFull.toBase]⟩
      · exact ⟨cache, by
          simp [Cursor.execute_full, Cursor.execute, hcl, hpf, ho,
                SpiOutcomeFull.toBase]⟩

/-! ### Claims -/

/-- Claim C4: the parameter-to-column-type classification is the
first-match-wins chain boolean, exact-decimal, floating-point,
integer-like, byte-sequence-like, list, fallback text, yielding
respectively bool, numeric, float8, int, bytea, text-array, text; and a
boolean value, although it also satisfies the integer check
(`isinstance_int`), classifies as bool. -/
theorem c4_type_classification :
    (∀ b, isinstance_int (PyVal.pyBool b) = true ∧
      py_param_to_pg_type (PyVal.pyBool b) = "bool") ∧
    (∀ r, py_param_to_pg_type (PyVal.pyDecimal r) = "numeric") ∧
    (∀ r, py_param_to_pg_type (PyVal.pyFloat r) = "float8") ∧
    (∀ n, py_param_to_pg_type (PyVal.pyInt n) = "int") ∧
    (∀ bs, py_param_to_pg_type (PyVal.pyBytes bs) = "bytea") ∧
    (∀ bs, py_param_to_pg_type (PyVal.pyMemoryview bs) = "bytea") ∧
    (∀ bs, py_param_to_pg_type (PyVal.pyBytearray bs) = "bytea") ∧
    (∀ es, py_param_to_pg_type (PyVal.pyList es) = "text[]") ∧
    (∀ s, py_param_to_pg_type (PyVal.pyStr s) = "text") :=
  ⟨fun _ => ⟨rfl, rfl⟩, fun _ => rfl, fun _ => rfl, fun _ => rfl,
   fun _ => rfl, fun _ => rfl, fun _ => rfl, fun _ => rfl, fun _ => rfl⟩

/-- Claim C9: session close is rollback followed by marking the session
closed, and close on an already-closed session raises Error; executor
close merely marks the executor closed, is total (never raises) and is
idempotent. -/
theorem c9_close_semantics (conn : Connection) (cur : Cursor) :
    (conn.closed = false →
      Connection.close conn =
        .ok { conn with _subxact := false, closed := true } ∧
      Connection.close conn =
        (Connection.rollback conn).map (fun c2 => { c2 with closed := true })) ∧
    (conn.closed = true → Connection.close conn = .error (.shimError none)) ∧
    Cursor.close cur = { cur with closed := true } ∧
    Cursor.close (Cursor.close cur) = Cursor.close cur := by
  refine ⟨fun h => ?_, fun h => ?_, rfl, rfl⟩ <;>
    simp [Connection.close, Connection.rollback, h, Except.map]

/-- Witness for C9 at concrete sessions and executors. -/
theorem c9_close_semantics_witness :
    Connection.close { closed := false, _subxact := true } =
      .ok { closed := true, _subxact := false } ∧
    Connection.close { closed := true, _subxact := false } =
      .error (.shimError none) ∧
    Cursor.close (Cursor.close {}) = Cursor.close {} := by
  refine ⟨?_, ?_, ?_⟩
  · exact ((c9_close_semantics { closed := false, _subxact := true } {}).1 rfl).1
  · exact (c9_close_semantics { closed := true, _subxact := false } {}).2.1 rfl
  · exact (c9_close_semantics {} {}).2.2.2

/-- Claim C8: on an executor holding a result buffer, `scroll` with mode
relative sets the position to position plus value, mode absolute sets it
to value, any other mode raises ValueError (before the position is
assigned), and a target that is negative or strictly greater than the
buffer length raises IndexError (before the position is assigned); in
this model a raise returns no new state, so the position is unchanged. -/
theorem c8_scroll_semantics (cur : Cursor) (rows : List Row) (rn value : Int)
    (hres : cur._execute_result = some rows) (hpos : cur.rownumber = some rn) :
    (Cursor.scroll cur value "relative" =
      if rn + value < 0 ∨ rn + value > (rows.length : Int) then
        .error (.indexError ("scroll operation would leave result set"))
      else .ok { cur with rownumber := some (rn + value) }) ∧
    (Cursor.scroll cur value "absolute" =
      if value < 0 ∨ value > (rows.length : Int) then
        .error (.indexError ("scroll operation would leave result set"))
      else .ok { cur with rownumber := some value }) ∧
    (∀ mode, mode ≠ "relative" → mode ≠ "absolute" →
      Cursor.scroll cur value mode = .error (.valueError ("Invalid mode"))) := by
  refine ⟨?_, ?_, fun mode h1 h2 => ?_⟩
  · simp [Cursor.scroll, hres, hpos]
  · simp [Cursor.scroll, hres, hpos]
  · simp [Cursor.scroll, hres, hpos, h1, h2]

/-- Witness for C8 at a two-row result: an in-range relative move, an
out-of-range absolute move, and an unrecognized mode. -/
theorem c8_scroll_semantics_witness :
    Cursor.scroll { _execute_result := some [[1], [2]], rownumber := some 0 }
        1 "relative" =
      .ok { _execute_result := some [[1], [2]], rownumber := some 1 } ∧
    Cursor.scroll { _execute_result := some [[1], [2]], rownumber := some 0 }
        5 "absolute" =
      .error (.indexError ("scroll operation would leave result set")) ∧
    Cursor.scroll { _execute_result := some [[1], [2]], rownumber := some 0 }
        0 "down" =
      .error (.valueError ("Invalid mode")) := by
  refine ⟨?_, ?_, ?_⟩
  · have h := (c8_scroll_semantics
      { _execute_result := some [[1], [2]], rownumber := some 0 }
      [[1], [2]] 0 1 rfl rfl).1
    simpa using h
  · have h := (c8_scroll_semantics
      { _execute_result := some [[1], [2]], rownumber := some 0 }
      [[1], [2]] 0 5 rfl rfl).2.1
    simpa using h
  · exact (c8_scroll_semantics
      { _execute_result := some [[1], [2]], rownumber := some 0 }
      [[1], [2]] 0 0 rfl rfl).2.2 "down" (by decide) (by decide)

/-- Claim C10: `fetchmany` advances the position by its size without
clipping to the buffer length, and once the position is strictly past the
end, `fetchone` raises IndexError instead of returning null, because its
end-of-result test compares the position for equality with the buffer
length before indexing. -/
theorem c10_fetchone_after_overrun (cur : Cursor) (rows : List Row)
    (rn size : Int)
    (hres : cur._execute_result = some rows) (hpos : cur.rownumber = some rn)
    (hrn : 0 ≤ rn) :
    (Cursor.fetchmany cur (some size) =
      .ok (pySlice rows rn (rn + size),
           { cur with rownumber := some (rn + size) })) ∧
    (rn > (rows.length : Int) →
      Cursor.fetchone cur = .error (.indexError ("list index out of range"))) ∧
    (rn + size > (rows.length : Int) →
      Cursor.fetchone { cur with rownumber := some (rn + size) } =
        .error (.indexError ("list index out of range"))) := by
  refine ⟨?_, fun h => ?_, fun h => ?_⟩
  · simp [Cursor.fetchmany, hres, hpos]
  · have hne : rn ≠ (rows.length : Int) := by omega
    have h0 : ¬ (rn < 0) := by omega
    have h1 : ¬ (0 ≤ rn ∧ rn < (rows.length : Int)) := by omega
    simp [Cursor.fetchone, hres, hpos, hne, pyGetItem, h0, h1]
  · have hne : rn + size ≠ (rows.length : Int) := by omega
    have h0 : ¬ (rn + size < 0) := by omega
    have h1 : ¬ (0 ≤ rn + size ∧ rn + size < (rows.length : Int)) := by omega
    simp [Cursor.fetchone, hres, hpos, hne, pyGetItem, h0, h1]

/-- Witness for C10: three rows, position 2, `fetchmany(5)` returns the one
remaining row and leaves the position at 7; `fetchone` then raises
IndexError. -/
theorem c10_fetchone_after_overrun_witness :
    Cursor.fetchmany
        { _execute_result := some [[1], [2], [3]], rownumber := some 2 }
        (some 5) =
      .ok ([[3]],
           { _execute_result := some [[1], [2], [3]], rownumber := some 7 }) ∧
    Cursor.fetchone
        { _execute_result := some [[1], [2], [3]], rownumber := some 7 } =
      .error (.indexError ("list index out of range")) := by
  have h := c10_fetchone_after_overrun
    { _execute_result := some [[1], [2], [3]], rownumber := some 2 }
    [[1], [2], [3]] 2 5 rfl rfl (by decide)
  refine ⟨?_, ?_⟩
  · have h1 := h.1
    simpa using h1
  · have h2 := h.2.2 (by decide)
    simpa using h2

theorem fetchoneN_drop (rows : List Row) :
    ∀ (suffix : List Row) (cur : Cursor) (k : Nat),
    cur._execute_result = some rows → cur.rownumber = some (k : Int) →
    k ≤ rows.length → rows.drop k = suffix →
    Cursor.fetchoneN cur suffix.length =
      .ok (suffix.map some,
           { cur with rownumber := some (rows.length : Int) }) := by
  intro suffix
  induction suffix with
  | nil =>
    intro cur k hres hpos hk hdrop
    have hkl : k = rows.length := by
      have := List.drop_eq_nil_iff.mp hdrop
      omega
    subst hkl
    have hcur : ({ cur with rownumber := some ((rows.length : Nat) : Int) }
        : Cursor) = cur := by
      cases cur
      simp_all
    simp [Cursor.fetchoneN, hcur]
  | cons r rest ih =>
    intro cur k hres hpos hk hdrop
    have hklt : k < rows.length := by
      rcases Nat.lt_or_ge k rows.length with h | h
      · exact h
      · have hnil : rows.drop k = [] := List.drop_eq_nil_iff.mpr h
        rw [hnil] at hdrop
        exact absurd hdrop (by simp)
    have hget : rows[k]? = some r := by
      have h0 : (rows.drop k)[0]? = some r := by rw [hdrop]; simp
      rw [List.getElem?_drop] at h0
      simpa using h0
    have hgetk : rows[k] = r := by
      rw [List.getElem?_eq_getElem hklt] at hget
      exact Option.some.inj hget
    have hne : (k : Int) ≠ (rows.length : Int) := by omega
    have hfetch : Cursor.fetchone cur =
        .ok (some r, { cur with rownumber := some ((k : Int) + 1) }) := by
      have h0 : ¬ ((k : Int) < 0) := by omega
      have h1 : (0 : Int) ≤ (k : Int) ∧ (k : Int) < (rows.length : Int) := by
        constructor <;> omega
      simp [Cursor.fetchone, hres, hpos, hne, pyGetItem, h0, h1,
            List.get_eq_getElem, Int.toNat_natCast, hgetk]
    have hres2 : ({ cur with rownumber := some ((k : Int) + 1) }
        : Cursor)._execute_result = some rows := by simpa using hres
    have hpos2 : ({ cur with rownumber := some ((k : Int) + 1) }
        : Cursor).rownumber = some (((k + 1 : Nat)) : Int) := by
      norm_cast
    have hdrop2 : rows.drop (k + 1) = rest := by
      have hdd : (rows.drop k).drop 1 = rows.drop (k + 1) :=
        List.drop_drop 1 k rows
      rw [← hdd, hdrop]
      rfl
    have ihspec := ih { cur with rownumber := some ((k : Int) + 1) } (k + 1)
      hres2 hpos2 (by omega) hdrop2
    simp only [List.length_cons, List.map_cons]
    simp [Cursor.fetchoneN, hfetch, ihspec]

/-- Claim C6: `fetchone` raises Error when no result buffer exists; on an
executor holding an `N`-row result with the position at the start, `N`
successive `fetchone` calls return the `N` rows in their original order,
each advancing the position by one, and every subsequent call returns null
without changing the state. -/
theorem c6_fetchone_sequence (cur : Cursor) (rows : List Row)
    (hres : cur._execute_result = some rows)
    (hpos : cur.rownumber = some 0) :
    Cursor.fetchoneN cur rows.length =
      .ok (rows.map some,
           { cur with rownumber := some (rows.length : Int) }) ∧
    (∀ cur2 : Cursor, cur2._execute_result = some rows →
      cur2.rownumber = some (rows.length : Int) →
      Cursor.fetchone cur2 = .ok (none, cur2)) ∧
    (∀ cur3 : Cursor, cur3._execute_result = none →
      Cursor.fetchone cur3 = .error (.shimError none)) := by
  refine ⟨?_, fun cur2 h2res h2pos => ?_, fun cur3 h3 => ?_⟩
  · exact fetchoneN_drop rows rows cur 0 hres (by simpa using hpos)
      (by omega) (by simp)
  · simp [Cursor.fetchone, h2res, h2pos]
  · simp [Cursor.fetchone, h3]

/-- Witness for C6 at a two-row result. -/
theorem c6_fetchone_sequence_witness :
    Cursor.fetchoneN
        { _execute_result := some [[10], [20]], rownumber := some 0 } 2 =
      .ok ([some [10], some [20]],
           { _execute_result := some [[10], [20]], rownumber := some 2 }) ∧
    Cursor.fetchone
        { _execute_result := some [[10], [20]], rownumber := some 2 } =
      .ok (none, { _execute_result := some [[10], [20]], rownumber := some 2 }) ∧
    Cursor.fetchone {} = .error (.shimError none) := by
  have h := c6_fetchone_sequence
    { _execute_result := some [[10], [20]], rownumber := some 0 }
    [[10], [20]] rfl rfl
  refine ⟨by simpa using h.1, ?_, h.2.2 {} rfl⟩
  have h2 := h.2.1
    { _execute_result := some [[10], [20]], rownumber := some 2 } rfl rfl
  simpa using h2

theorem foldl_paramStep_spec (parameters : List PyVal) :
    ∀ acc : ParamsAcc,
    parameters.foldl paramStep acc =
      { placeholders := acc.placeholders ++ specPlaceholders parameters acc.i,
        types := acc.types ++ specTypes parameters,
        values := acc.values ++ specValues parameters,
        i := acc.i + nonNullCount parameters } := by
  induction parameters with
  | nil => intro acc; simp [specPlaceholders, specTypes, specValues, nonNullCount]
  | cons p rest ih =>
    intro acc
    by_cases hp : p = PyVal.pyNone
    · simp [List.foldl_cons, paramStep, hp, ih, specPlaceholders, specTypes,
            specValues, nonNullCount]
    · simp only [List.foldl_cons, paramStep, if_neg hp, ih]
      simp [specPlaceholders, specTypes, specValues, nonNullCount, hp,
            List.append_assoc]
      omega

theorem specPlaceholders_length (parameters : List PyVal) :
    ∀ i : Nat, (specPlaceholders parameters i).length = parameters.length := by
  induction parameters with
  | nil => intro i; rfl
  | cons p rest ih =>
    intro i
    by_cases hp : p = PyVal.pyNone <;> simp [specPlaceholders, hp, ih]

theorem specTypes_length (parameters : List PyVal) :
    (specTypes parameters).length = nonNullCount parameters := by
  induction parameters with
  | nil => rfl
  | cons p rest ih =>
    by_cases hp : p = PyVal.pyNone
    · simp [specTypes, nonNullCount, hp, ih]
    · simp [specTypes, nonNullCount, hp, ih]
      omega

theorem specValues_length (parameters : List PyVal) :
    (specValues parameters).length = nonNullCount parameters := by
  induction parameters with
  | nil => rfl
  | cons p rest ih =>
    by_cases hp : p = PyVal.pyNone
    · simp [specValues, nonNullCount, hp, ih]
    · simp [specValues, nonNullCount, hp, ih]
      omega

theorem nonNullCount_eq_length (parameters : List PyVal)
    (h : ∀ p ∈ parameters, p ≠ PyVal.pyNone) :
    nonNullCount parameters = parameters.length := by
  induction parameters with
  | nil => rfl
  | cons p rest ih =>
    have hp : p ≠ PyVal.pyNone := h p (List.mem_cons_self p rest)
    have hrest := ih (fun q hq => h q (List.mem_cons_of_mem p hq))
    simp [nonNullCount, hp, hrest]
    omega

/-- Claim C5: the parameter loop of `execute` turns each null parameter
into the literal `NULL` at its position (no positional placeholder, no
queued type or value) and each non-null parameter into exactly one
consecutively numbered positional placeholder plus exactly one queued
(type, value) binding; this is stated as the equality of `buildParams`
(translated from the source) with the spec-side reference definitions,
together with the count consequences (for an all-non-null list the number
of generated positional placeholders equals the parameter count). -/
theorem c5_placeholder_generation (parameters : List PyVal) :
    buildParams parameters =
      { placeholders := specPlaceholders parameters 0,
        types := specTypes parameters,
        values := specValues parameters,
        i := nonNullCount parameters } ∧
    (buildParams parameters).placeholders.length = parameters.length ∧
    (buildParams parameters).types.length = nonNullCount parameters ∧
    (buildParams parameters).values.length = nonNullCount parameters ∧
    ((∀ p ∈ parameters, p ≠ PyVal.pyNone) →
      (buildParams parameters).i = parameters.length ∧
      (buildParams parameters).types.length = parameters.length) := by
  have hmain : buildParams parameters =
      { placeholders := specPlaceholders parameters 0,
        types := specTypes parameters,
        values := specValues parameters,
        i := nonNullCount parameters } := by
    have h := foldl_paramStep_spec parameters {}
    simpa [buildParams] using h
  refine ⟨hmain, ?_, ?_, ?_, fun hall => ⟨?_, ?_⟩⟩
  · rw [hmain]; exact specPlaceholders_length parameters 0
  · rw [hmain]; exact specTypes_length parameters
  · rw [hmain]; exact specValues_length parameters
  · rw [hmain]; exact nonNullCount_eq_length parameters hall
  · rw [hmain]
    rw [specTypes_length parameters]
    exact nonNullCount_eq_length parameters hall

/-- Witness for C5 at the list `[1, None, b'', 'x']`: the rewritten
placeholder list is `$1, NULL, $2, $3`, three types and three values are
queued, and the all-non-null consequence holds at `[1, 'x']`. -/
theorem c5_placeholder_generation_witness :
    buildParams [PyVal.pyInt 1, PyVal.pyNone, PyVal.pyBytes [7], PyVal.pyStr "x"] =
      { placeholders := ["$1", "NULL", "$2", "$3"],
        types := ["int", "bytea", "text"],
        values := [PyVal.pyInt 1, PyVal.pyBytes [7], PyVal.pyStr "x"],
        i := 3 } ∧
    (buildParams [PyVal.pyInt 1, PyVal.pyStr "x"]).i = 2 := by
  constructor
  · have h := (c5_placeholder_generation
      [PyVal.pyInt 1, PyVal.pyNone, PyVal.pyBytes [7], PyVal.pyStr "x"]).1
    rw [h]
    decide
  · exact ((c5_placeholder_generation [PyVal.pyInt 1, PyVal.pyStr "x"]).2.2.2.2
      (by decide)).1

/-- The host used by the C3 theorems: a one-row select with column
metadata (one column of type oid 23) for the query `select 1`, a raised
`SPIError('boom')` on everything else. -/
def c3host : HostEngineFull := fun query _ _ =>
  if query = "select 1" then
    SpiOutcomeFull.success 5 [[7]] 1 true ["c"] [23] ["c"]
  else SpiOutcomeFull.spiError ("boom")

/-- Claim C3 counterexample: the statement's prepare-and-execute succeeds,
then description building calls `get_type_obj` with an empty process-wide
type cache; the unguarded catalog query raises
`SPIError('catalog boom')`, and that host-native error leaves `execute`
as itself — not wrapped in the shim's Error — contradicting the claim
that no host-native exception type ever propagates out of `execute`. -/
theorem c3_counterexample :
    Cursor.execute_full c3host (.error ("catalog boom")) []
        { closed := false, _subxact := false } {} "select 1" [] =
      (some (PyExc.spiError ("catalog boom")),
       { closed := false, _subxact := true },
       { description := none, rowcount := -1, arraysize := 1,
         rownumber := some 0, closed := false,
         _execute_result := some [[7]] }, []) ∧
    (PyExc.spiError ("catalog boom")).isHostNative = true ∧
    (PyExc.spiError ("catalog boom")).isShimError = false := by
  decide

/-- Claim C3 (amended): when the host's prepare-or-execute step for the
statement itself raises `SPIError`, `execute` catches it and raises the
shim's generic Error with the original host error stored as context; but
the lazy type-catalog query run through `get_type_obj` while building
descriptors is unguarded, so on a row-returning result with column
metadata, an empty process-wide type cache and a failing catalog query,
the host-native `SPIError` propagates out of `execute` unwrapped (with
the new result buffer and position already assigned and description and
row count still holding their reset values); and this is the only escape:
every host-native exception `execute` lets through comes from exactly
that configuration — an empty cache and a failing catalog query. -/
theorem c3_host_error_escape (host : HostEngineFull) (catalog : CatalogOutcome)
    (cache : List (Nat × TypeObj)) (conn : Connection) (cur : Cursor)
    (operation : String) (parameters : List PyVal) (query : String)
    (hopen : cur._is_closed conn = false)
    (hq : pctFormat operation (buildParams parameters).placeholders = some query) :
    (∀ e, host query (buildParams parameters).types
        (buildParams parameters).values = SpiOutcomeFull.spiError e →
      Cursor.execute_full host catalog cache conn cur operation parameters =
        (some (.shimError (some e)), conn._ensure_transaction, cur, cache)) ∧
    (∀ status rows nrows cns t ts rks ce,
      host query (buildParams parameters).types
          (buildParams parameters).values =
        SpiOutcomeFull.success status rows nrows true cns (t :: ts) rks →
      rowReturningStatus status = true →
      cache = [] → catalog = .error ce →
      Cursor.execute_full host catalog cache conn cur operation parameters =
        (some (PyExc.spiError ce), conn._ensure_transaction,
         { cur with _execute_result := some rows, rownumber := some 0,
                    description := none, rowcount := -1 }, [])) ∧
    (∀ exc,
      (Cursor.execute_full host catalog cache conn cur operation
          parameters).1 = some exc →
      exc.isHostNative = true →
      cache = [] ∧ ∃ ce, catalog = .error ce ∧ exc = PyExc.spiError ce) := by
  refine ⟨fun e hhost => ?_, fun status rows nrows cns t ts rks ce
    hhost hrr hcache hcat => ?_, fun exc h hnat => ?_⟩
  · simp [Cursor.execute_full, hopen, hq, hhost]
  · subst hcache
    subst hcat
    simp [Cursor.execute_full, hopen, hq, hhost, hrr, descTypeObjs,
          get_type_obj]
  · unfold Cursor.execute_full at h
    simp only [hopen, Bool.false_eq_true, if_false] at h
    rw [hq] at h
    dsimp only at h
    rcases ho : host query (buildParams parameters).types
        (buildParams parameters).values with
      ⟨status, rows, nrows, ca, cns, cts, rks⟩ | e2
    · rw [ho] at h
      dsimp only at h
      by_cases hb : (rowReturningStatus status && ca) = true
      · rw [if_pos hb] at h
        rcases hdo : descTypeObjs catalog cache cts with de | ⟨objs, cache2⟩
        · rw [hdo] at h
          dsimp only at h
          injection h with hexc
          obtain ⟨hc0, hcat0⟩ := descTypeObjs_error catalog cts cache de hdo
          exact ⟨hc0, de, hcat0, hexc.symm⟩
        · rw [hdo] at h
          simp at h
      · rw [if_neg hb] at h
        simp at h
    · rw [ho] at h
      dsimp only at h
      injection h with hexc
      rw [← hexc] at hnat
      simp [PyExc.isHostNative] at hnat

/-- Witness for the amended C3: with an empty cache and a failing catalog,
a failing statement is wrapped as the shim Error, a successful select with
metadata lets the catalog `SPIError` escape unwrapped with the partial
cursor state, and the escape characterization identifies the cache and
catalog configuration. -/
theorem c3_host_error_escape_witness :
    Cursor.execute_full c3host (.error ("catalog boom")) []
        { closed := false, _subxact := false } {} "select 2" [] =
      (some (PyExc.shimError (some ("boom"))),
       { closed := false, _subxact := true }, {}, []) ∧
    Cursor.execute_full c3host (.error ("catalog boom")) []
        { closed := false, _subxact := false } {} "select 1" [] =
      (some (PyExc.spiError ("catalog boom")),
       { closed := false, _subxact := true },
       { description := none, rowcount := -1, arraysize := 1,
         rownumber := some 0, closed := false,
         _execute_result := some [[7]] }, []) ∧
    (([] : List (Nat × TypeObj)) = [] ∧ ∃ ce,
      (Except.error ("catalog boom") : CatalogOutcome) = .error ce ∧
      PyExc.spiError ("catalog boom") = PyExc.spiError ce) := by
  have h := c3_host_error_escape c3host (.error ("catalog boom")) []
    { closed := false, _subxact := false } {} "select 2" [] "select 2"
    (by decide) (by decide)
  have h2 := c3_host_error_escape c3host (.error ("catalog boom")) []
    { closed := false, _subxact := false } {} "select 1" [] "select 1"
    (by decide) (by decide)
  refine ⟨h.1 "boom" (by decide),
    h2.2.1 5 [[7]] 1 ["c"] 23 [] ["c"] "catalog boom"
      (by decide) (by decide) rfl rfl, ?_⟩
  exact h2.2.2 (PyExc.spiError ("catalog boom")) (by decide) (by decide)

/-- The host used by the C1 theorems: succeeds on the query `select 1`,
raises `SPIError('boom')` on everything else. -/
def c1host : HostEngine := fun query _ _ =>
  if query = "select 1" then SpiOutcome.success 5 [[7]] 1 true ["c"] ["c"]
  else SpiOutcome.spiError ("boom")

/-- Claim C1 counterexample: an executor holding a previous one-row result
calls `execute` again and the host prepare-or-execute step fails; the
claim says the result buffer, position, description and row count are
reset at the start of the call, before any outcome, but the code resets
them only after the host step, so the cursor is returned entirely
unchanged and the stale row is still observable via `fetchone`. -/
theorem c1_counterexample :
    Cursor.execute c1host { closed := false, _subxact := false }
        { description := some [some ("a")], rowcount := 1, arraysize := 1,
          rownumber := some 0, closed := false, _execute_result := some [[7]] }
        "select 2" [] =
      (some (PyExc.shimError (some ("boom"))),
       { closed := false, _subxact := true },
       { description := some [some ("a")], rowcount := 1, arraysize := 1,
         rownumber := some 0, closed := false,
         _execute_result := some [[7]] }) ∧
    Cursor.fetchone
        { description := some [some ("a")], rowcount := 1, arraysize := 1,
          rownumber := some 0, closed := false,
          _execute_result := some [[7]] } =
      .ok (some [7],
        { description := some [some ("a")], rowcount := 1, arraysize := 1,
          rownumber := some 1, closed := false,
          _execute_result := some [[7]] }) := by
  decide

/-- Claim C1 (amended): `execute` resets the result buffer, position,
description and row count only after the host prepare-and-execute step
succeeds (and before the new result is classified, so that no field of
the previous execution survives a successful call); when the host step
raises, the executor state is left entirely unchanged and rows from the
previous execution remain observable. -/
theorem c1_reset_on_success_only (host : HostEngine) (conn : Connection)
    (cur : Cursor) (operation : String) (parameters : List PyVal)
    (query : String)
    (hopen : cur._is_closed conn = false)
    (hq : pctFormat operation (buildParams parameters).placeholders = some query) :
    (∀ status rows nrows ca cns rks,
      host query (buildParams parameters).types (buildParams parameters).values =
        SpiOutcome.success status rows nrows ca cns rks →
      Cursor.execute host conn cur operation parameters =
        (none, conn._ensure_transaction,
         executeResultCursor cur status rows nrows ca cns rks) ∧
      (executeResultCursor cur status rows nrows ca cns rks)._execute_result =
        (if rowReturningStatus status then some rows else none) ∧
      (executeResultCursor cur status rows nrows ca cns rks).rownumber =
        (if rowReturningStatus status then some 0 else none) ∧
      (executeResultCursor cur status rows nrows ca cns rks).description =
        (if rowReturningStatus status then
          some (mkDescription ca cns rks rows.length) else none) ∧
      (executeResultCursor cur status rows nrows ca cns rks).rowcount =
        (if status = _SPI_OK_UTILITY then -1 else nrows)) ∧
    (∀ e,
      host query (buildParams parameters).types (buildParams parameters).values =
        SpiOutcome.spiError e →
      Cursor.execute host conn cur operation parameters =
        (some (.shimError (some e)), conn._ensure_transaction, cur)) := by
  refine ⟨fun status rows nrows ca cns rks hhost => ?_,
    fun e hhost => execute_eq_of_spiError host conn cur operation parameters
      e query hopen hq hhost⟩
  have hf := executeResultCursor_fields cur status rows nrows ca cns rks
  exact ⟨execute_eq_of_success host conn cur operation parameters
      status rows nrows ca cns rks query hopen hq hhost,
    hf.2.2.2.1, hf.2.2.2.2.1, hf.2.2.2.2.2, hf.2.2.1⟩

/-- Witness for the amended C1: on a cursor holding a stale result, a
successful `select 1` replaces every result field, while a failing
`select 2` leaves the stale state in place. -/
theorem c1_reset_on_success_only_witness :
    Cursor.execute c1host { closed := false, _subxact := false }
        { description := some [some ("a")], rowcount := 3, arraysize := 1,
          rownumber := some 2, closed := false,
          _execute_result := some [[1], [2], [3]] }
        "select 1" [] =
      (none, { closed := false, _subxact := true },
       { description := some [some ("c")], rowcount := 1, arraysize := 1,
         rownumber := some 0, closed := false,
         _execute_result := some [[7]] }) ∧
    Cursor.execute c1host { closed := false, _subxact := false }
        { description := some [some ("a")], rowcount := 3, arraysize := 1,
          rownumber := some 2, closed := false,
          _execute_result := some [[1], [2], [3]] }
        "select 2" [] =
      (some (PyExc.shimError (some ("boom"))),
       { closed := false, _subxact := true },
       { description := some [some ("a")], rowcount := 3, arraysize := 1,
         rownumber := some 2, closed := false,
         _execute_result := some [[1], [2], [3]] }) := by
  constructor
  · have h := ((c1_reset_on_success_only c1host
      { closed := false, _subxact := false }
      { description := some [some ("a")], rowcount := 3, arraysize := 1,
        rownumber := some 2, closed := false,
        _execute_result := some [[1], [2], [3]] }
      "select 1" [] "select 1" (by decide) (by decide)).1
      5 [[7]] 1 true ["c"] ["c"] (by decide)).1
    exact h
  · have h := (c1_reset_on_success_only c1host
      { closed := false, _subxact := false }
      { description := some [some ("a")], rowcount := 3, arraysize := 1,
        rownumber := some 2, closed := false,
        _execute_result := some [[1], [2], [3]] }
      "select 2" [] "select 2" (by decide) (by decide)).2
      "boom" (by decide)
    exact h

theorem executemanyAux_success (host : HostEngine) (operation : String) :
    ∀ (seq : List (List PyVal)) (conn : Connection) (cur : Cursor) (t : Int),
    cur.closed = false → conn.closed = false →
    (∀ ps ∈ seq, isSuccessCall host operation ps = true) →
    ∃ conn2 cur2,
      Cursor.executemanyAux host conn cur operation seq t =
        (none, conn2, cur2,
         accTotals t (seq.map (callRowcount host operation))) ∧
      cur2.closed = false ∧ conn2.closed = false := by
  intro seq
  induction seq with
  | nil =>
    intro conn cur t hcur hconn _
    exact ⟨conn, cur, rfl, hcur, hconn⟩
  | cons ps rest ih =>
    intro conn cur t hcur hconn hsucc
    have hs := hsucc ps (List.mem_cons_self ps rest)
    obtain ⟨status, rows, nrows, ca, cns, rks, hco⟩ :
        ∃ status rows nrows ca cns rks,
          callOutcome host operation ps =
            some (SpiOutcome.success status rows nrows ca cns rks) := by
      unfold isSuccessCall at hs
      rcases hco : callOutcome host operation ps with _ | o
      · rw [hco] at hs; simp at hs
      · rcases o with ⟨st, rws, nr, cb, cn, rk⟩ | e2
        · exact ⟨st, rws, nr, cb, cn, rk, rfl⟩
        · rw [hco] at hs; simp at hs
    obtain ⟨query, hq, hhost⟩ :
        ∃ q, pctFormat operation (buildParams ps).placeholders = some q ∧
          host q (buildParams ps).types (buildParams ps).values =
            SpiOutcome.success status rows nrows ca cns rks := by
      unfold callOutcome at hco
      exact Option.map_eq_some'.mp hco
    have hopen : cur._is_closed conn = false := by
      simp [Cursor._is_closed, hcur, hconn]
    have hex := execute_eq_of_success host conn cur operation ps
      status rows nrows ca cns rks query hopen hq hhost
    have hfields := executeResultCursor_fields cur status rows nrows ca cns rks
    have hrc : (executeResultCursor cur status rows nrows ca cns rks).rowcount =
        callRowcount host operation ps := by
      rw [hfields.2.2.1]
      unfold callRowcount
      rw [hco]
      rfl
    have hconn2 : (conn._ensure_transaction).closed = false := by
      unfold Connection._ensure_transaction
      split
      · exact hconn
      · simpa using hconn
    have hcur2 : (executeResultCursor cur status rows nrows ca cns rks).closed
        = false := by rw [hfields.1]; exact hcur
    obtain ⟨conn3, cur3, heq, hc3, hn3⟩ := ih conn._ensure_transaction
      (executeResultCursor cur status rows nrows ca cns rks)
      (if t ≠ -1 then
        t + (executeResultCursor cur status rows nrows ca cns rks).rowcount
       else t)
      hcur2 hconn2 (fun qs hqs => hsucc qs (List.mem_cons_of_mem ps hqs))
    refine ⟨conn3, cur3, ?_, hc3, hn3⟩
    show Cursor.executemanyAux host conn cur operation (ps :: rest) t = _
    unfold Cursor.executemanyAux
    rw [hex]
    dsimp only
    rw [heq, hrc]
    rfl

/-- The host used by the C2 theorems: an insert affecting two rows for the
parameter set `[1]`, a utility statement (row count unknown, -1) for every
other parameter set. -/
def c2host : HostEngine := fun _ _ values =>
  if values = [PyVal.pyInt 1] then SpiOutcome.success 7 [] 2 false [] []
  else SpiOutcome.success 4 [] 0 false [] []

/-- Claim C2 counterexample: two parameter sets whose executions report row
counts 2 and then -1 (a utility statement).  The claim says any individual
-1 makes the final row count -1, but the code only stops accumulating once
the running total *equals* -1, so the final row count is 2 + (-1) = 1. -/
theorem c2_counterexample :
    (Cursor.executemany c2host { closed := false, _subxact := false } {}
        "select %s" [[PyVal.pyInt 1], [PyVal.pyInt 2]]).1 = none ∧
    (Cursor.executemany c2host { closed := false, _subxact := false } {}
        "select %s" [[PyVal.pyInt 1], [PyVal.pyInt 2]]).2.2.rowcount = 1 ∧
    (Cursor.execute c2host { closed := false, _subxact := true } {}
        "select %s" [PyVal.pyInt 2]).2.2.rowcount = -1 ∧
    (1 : Int) ≠ -1 := by
  decide

/-- Claim C2 (amended): `executemany` executes once per parameter set in
order and sets the final row count to the left-to-right accumulation of
the per-execution row counts in which a count is added only while the
running total differs from -1; hence a -1 reported by the *first*
execution propagates, but a -1 reported after a non-(-1) running total is
merely added to the sum. -/
theorem c2_rowcount_accumulation (host : HostEngine) (conn : Connection)
    (cur : Cursor) (operation : String) (seq : List (List PyVal))
    (hcur : cur.closed = false) (hconn : conn.closed = false)
    (hsucc : ∀ ps ∈ seq, isSuccessCall host operation ps = true) :
    (Cursor.executemany host conn cur operation seq).1 = none ∧
    (Cursor.executemany host conn cur operation seq).2.2.rowcount =
      accTotals 0 (seq.map (callRowcount host operation)) := by
  obtain ⟨conn2, cur2, heq, -, -⟩ :=
    executemanyAux_success host operation seq conn cur 0 hcur hconn hsucc
  unfold Cursor.executemany
  rw [heq]
  simp

/-- Witness for the amended C2 at the counterexample's inputs: both calls
succeed and the final row count is the guarded accumulation (which
evaluates to 1). -/
theorem c2_rowcount_accumulation_witness :
    (Cursor.executemany c2host { closed := false, _subxact := false } {}
        "select %s" [[PyVal.pyInt 1], [PyVal.pyInt 2]]).1 = none ∧
    (Cursor.executemany c2host { closed := false, _subxact := false } {}
        "select %s" [[PyVal.pyInt 1], [PyVal.pyInt 2]]).2.2.rowcount =
      accTotals 0
        (([[PyVal.pyInt 1], [PyVal.pyInt 2]] : List (List PyVal)).map
          (callRowcount c2host "select %s")) :=
  c2_rowcount_accumulation c2host { closed := false, _subxact := false } {}
    "select %s" [[PyVal.pyInt 1], [PyVal.pyInt 2]]
    (by decide) (by decide) (by decide)

/-- Claim C7 counterexample: `fetchone` on a *closed* executor that still
holds a result buffer does not raise — it returns the row and advances the
position, because none of the fetch methods consult the closed flag.  The
claim says every operation on a closed executor raises immediately. -/
theorem c7_counterexample :
    Cursor.fetchone
        { description := none, rowcount := 1, arraysize := 1,
          rownumber := some 0, closed := true, _execute_result := some [[5]] } =
      .ok (some [5],
        { description := none, rowcount := 1, arraysize := 1,
          rownumber := some 1, closed := true,
          _execute_result := some [[5]] }) := by
  decide

/-- Claim C7 (amended): `execute` on a closed session or executor raises
Error immediately; any fetch before a row-returning execution raises
Error; `scroll` with an unrecognized mode raises ValueError and with an
out-of-range target raises IndexError — all immediately on the misusing
call.  But the fetch methods do not check closedness: on a closed executor
that still holds a result buffer, `fetchone` succeeds. -/
theorem c7_misuse_errors (host : HostEngine) (conn : Connection)
    (cur : Cursor) (operation : String) (parameters : List PyVal)
    (value : Int) :
    (cur._is_closed conn = true →
      Cursor.execute host conn cur operation parameters =
        (some (.shimError none), conn, cur)) ∧
    (cur._execute_result = none →
      Cursor.fetchone cur = .error (.shimError none) ∧
      (∀ size, Cursor.fetchmany cur size = .error (.shimError none)) ∧
      Cursor.fetchall cur = .error (.shimError none)) ∧
    (∀ mode, mode ≠ "relative" → mode ≠ "absolute" →
      Cursor.scroll cur value mode = .error (.valueError ("Invalid mode"))) ∧
    (∀ rows, cur._execute_result = some rows →
      (value < 0 ∨ value > (rows.length : Int)) →
      Cursor.scroll cur value "absolute" =
        .error (.indexError ("scroll operation would leave result set"))) ∧
    (∀ rows rn, cur._execute_result = some rows → cur.rownumber = some rn →
      cur.closed = true → 0 ≤ rn → rn < (rows.length : Int) →
      ∃ row cur2, Cursor.fetchone cur = .ok (some row, cur2)) := by
  refine ⟨fun h => ?_, fun h => ⟨?_, fun size => ?_, ?_⟩,
    fun mode h1 h2 => ?_, fun rows hres hrange => ?_,
    fun rows rn hres hpos hclosed h4 h5 => ?_⟩
  · simp [Cursor.execute, h]
  · simp [Cursor.fetchone, h]
  · simp [Cursor.fetchmany, h]
  · simp [Cursor.fetchall, h]
  · simp [Cursor.scroll, h1, h2]
  · simp [Cursor.scroll, hres, hrange]
  · have hne : rn ≠ (rows.length : Int) := by omega
    have h0 : ¬ (rn < 0) := by omega
    have h1 : (0 : Int) ≤ rn ∧ rn < (rows.length : Int) := ⟨h4, h5⟩
    refine ⟨rows.get ⟨rn.toNat, by omega⟩,
      { cur with rownumber := some (rn + 1) }, ?_⟩
    simp [Cursor.fetchone, hres, hpos, hne, pyGetItem, h0, h1]

/-- Witness for the amended C7: execute on a closed executor raises, every
fetch without a result buffer raises, scroll misuse raises, and fetchone
on a closed executor holding one row succeeds. -/
theorem c7_misuse_errors_witness :
    Cursor.execute (fun _ _ _ => SpiOutcome.spiError ("x"))
        { closed := true, _subxact := false } {} "select 1" [] =
      (some (.shimError none), { closed := true, _subxact := false }, {}) ∧
    Cursor.fetchone {} = .error (.shimError none) ∧
    Cursor.fetchmany {} none = .error (.shimError none) ∧
    Cursor.fetchall {} = .error (.shimError none) ∧
    Cursor.scroll {} 0 "sideways" = .error (.valueError ("Invalid mode")) ∧
    Cursor.scroll { _execute_result := some [[5]], rownumber := some 0 }
        2 "absolute" =
      .error (.indexError ("scroll operation would leave result set")) ∧
    (∃ row cur2,
      Cursor.fetchone
          { description := none, rowcount := 1, arraysize := 1,
            rownumber := some 0, closed := true,
            _execute_result := some [[5]] } =
        .ok (some row, cur2)) := by
  have ha := c7_misuse_errors (fun _ _ _ => SpiOutcome.spiError ("x"))
    { closed := true, _subxact := false } {} "select 1" [] 0
  have hb := c7_misuse_errors (fun _ _ _ => SpiOutcome.spiError ("x"))
    { closed := false, _subxact := false }
    { _execute_result := some [[5]], rownumber := some 0 } "select 1" [] 2
  have hc := c7_misuse_errors (fun _ _ _ => SpiOutcome.spiError ("x"))
    { closed := false, _subxact := false }
    { description := none, rowcount := 1, arraysize := 1,
      rownumber := some 0, closed := true, _execute_result := some [[5]] }
    "select 1" [] 0
  refine ⟨ha.1 (by decide), (ha.2.1 rfl).1, (ha.2.1 rfl).2.1 none,
    (ha.2.1 rfl).2.2, ha.2.2.1 "sideways" (by decide) (by decide), ?_, ?_⟩
  · have h := hb.2.2.2.1 [[5]] rfl (by decide)
    exact h
  · exact hc.2.2.2.2 [[5]] 0 rfl rfl rfl (by decide) (by decide)

end Plpydbapi
